import Mathlib

/-!
Shallow embedding of the `gemini-backend` HTTP service
(src/index.js and src/unnamed/part_000: an Express server exposing
CRUD over a Supabase `credit_cards` table and a proxied Gemini chat
endpoint with a best-effort log write to an `ai_logs` table).

Request bodies are JSON objects, modelled as association lists of
`JsonValue`s.  The two external collaborators (Supabase row store,
Gemini completion API) are opaque services: each handler is a pure
function of the request data together with the collaborator outcomes
relevant to that request (the store's table contents, an injected
store/provider error), and returns the HTTP response it produces plus
flags recording which external calls the handler performed.
-/

namespace GeminiBackend

/-- JSON scalar values as they matter to the handlers' JavaScript
truthiness checks.  Arrays and objects (always truthy in JS) do not
occur in any claim and are omitted. -/
inductive JsonValue where
  | str (s : String)
  | num (n : Int)
  | bool (b : Bool)
  | null
  deriving DecidableEq, Repr

/-- JavaScript truthiness of a JSON value: `""`, `0`, `false` and
`null` are falsy, everything else truthy. -/
def jsTruthy : JsonValue → Bool
  | .str s => !(s == "")
  | .num n => !(n == 0)
  | .bool b => b
  | .null => false

/-- A JSON object (request body or stored row): an association list
from field names to values.  `rowGet` is JavaScript property lookup;
an absent field reads as `undefined`, i.e. `none`. -/
abbrev Row := List (String × JsonValue)

/-- `body[field]` — the binding of `field`, if any (a parsed JSON
object binds each field once). -/
def rowGet : Row → String → Option JsonValue
  | [], _ => none
  | p :: t, f => if p.1 = f then some p.2 else rowGet t f

/-- Truthiness of `body[field]` as tested by `if (!cardData[field])`:
an absent field is `undefined`, hence falsy. -/
def rowTruthy (r : Row) (f : String) : Bool :=
  match rowGet r f with
  | some v => jsTruthy v
  | none => false

/-- Remove every binding of field `f` from a JSON object. -/
def eraseField (r : Row) (f : String) : Row :=
  r.filter (fun p => !(p.1 == f))

/-! ## Chat endpoint — `app.post('/api/chat')`

Both src/index.js lines 23–65 and src/unnamed/part_000 lines 238–280
contain the identical handler:

    const { message } = req.body;
    if (!message) return res.status(400).json({ error: '請提供訊息 (message)' });
    const result = await model.generateContent(message);   -- may throw
    const aiText = (await result.response).text();
    const { data, error } = await supabase.from('ai_logs')
        .insert([{ prompt: message, response: aiText }]);   -- error returned, not thrown
    if (error) console.error(...);
    res.json({ reply: aiText, saved: !error });
    -- catch: res.status(500).json({ error: ..., details: error.message })

The Gemini call either throws (caught as 500) or resolves with the
generated text, possibly empty; the Supabase insert reports failure
through its returned `error` field and never throws. -/

/-- The chat log row `{ prompt, response }` inserted into `ai_logs`. -/
structure ChatLogEntry where
  prompt : String
  response : String
  deriving DecidableEq, Repr

/-- HTTP response of `POST /api/chat`. -/
inductive ChatResponse where
  /-- 400 `{ error: '請提供訊息 (message)' }` -/
  | missingMessage
  /-- 200 `{ reply, saved }` -/
  | ok (reply : String) (saved : Bool)
  /-- 500 `{ error: '伺服器發生錯誤', details }` -/
  | serverError (details : String)
  deriving DecidableEq, Repr

/-- HTTP status code of a chat response. -/
def chatStatus : ChatResponse → Nat
  | .missingMessage => 400
  | .ok _ _ => 200
  | .serverError _ => 500

/-- Everything a chat request produces: the HTTP response, whether the
completion provider was called, whether the `ai_logs` insert was
attempted, and (when attempted) the entry handed to the insert. -/
structure ChatOutcome where
  response : ChatResponse
  completionCalled : Bool
  logAttempted : Bool
  logEntry : Option ChatLogEntry
  deriving DecidableEq, Repr

/-- The `POST /api/chat` handler.  `message` is the `message` field of
the request body (`none` when absent); `genResult` is the outcome of
the Gemini call (`.error msg` when it throws with that message,
`.ok text` when it resolves with generated text `text`); `logError` is
the `error` field the Supabase insert returns (`some msg` on failure). -/
def postChat (message : Option String) (genResult : Except String String)
    (logError : Option String) : ChatOutcome :=
  if message.getD "" == "" then
    { response := .missingMessage, completionCalled := false,
      logAttempted := false, logEntry := none }
  else
    match genResult with
    | .error e =>
        { response := .serverError e, completionCalled := true,
          logAttempted := false, logEntry := none }
    | .ok aiText =>
        { response := .ok aiText logError.isNone, completionCalled := true,
          logAttempted := true,
          logEntry := some { prompt := message.getD "", response := aiText } }

/-! ## Create endpoint — `app.post('/api/cards')`

src/unnamed/part_000 lines 103–145:

    const cardData = req.body;
    const requiredFields = ['發卡機構', '卡名', '消費種類', '回饋數值'];
    for (const field of requiredFields)
        if (!cardData[field])
            return res.status(400).json({ error: `缺少必要欄位: ` + field });
    const { data, error } = await supabase.from('credit_cards')
        .insert([cardData]).select();
    if (error) return res.status(500).json({ error: ..., details: error.message });
    res.status(201).json({ success: true, data: data[0] });

Field-name correspondence used by the spec: 發卡機構 = issuer,
卡名 = card_name, 消費種類 = spend_category, 回饋數值 = reward_value,
簽帳地區 = region. -/

/-- The four required create fields, in the order the handler checks
them: issuer, card_name, spend_category, reward_value. -/
def requiredFields : List String := ["發卡機構", "卡名", "消費種類", "回饋數值"]

/-- The first required field the `for`/`if (!cardData[field])` loop
rejects: the first one whose value is absent or falsy. -/
def firstMissing (body : Row) : Option String :=
  requiredFields.find? (fun f => !rowTruthy body f)

/-- HTTP response of `POST /api/cards`. -/
inductive CreateResponse where
  /-- 400 `{ error: '缺少必要欄位: ' + field }` -/
  | missingField (field : String)
  /-- 500 `{ error: '無法新增信用卡資料', details }` -/
  | storeError (details : String)
  /-- 201 `{ success: true, data: data[0] }` where `data` is the row
  list the insert returned -/
  | created (record : Option Row)
  deriving DecidableEq, Repr

/-- HTTP status code of a create response. -/
def createStatus : CreateResponse → Nat
  | .missingField _ => 400
  | .storeError _ => 500
  | .created _ => 201

/-- The `POST /api/cards` handler.  `insertResult` is the outcome of
the Supabase insert (`.error msg` when the store reports an error,
`.ok rows` with the inserted rows returned by `.select()`).  The
second component records whether the store insert was performed. -/
def postCards (body : Row) (insertResult : Except String (List Row)) :
    CreateResponse × Bool :=
  match firstMissing body with
  | some f => (.missingField f, false)
  | none =>
    match insertResult with
    | .error e => (.storeError e, true)
    | .ok rows => (.created rows.head?, true)

/-! ## Filter and list endpoints — `app.get('/api/cards/filter')`, `app.get('/api/cards')`

src/unnamed/part_000 lines 62–99 (filter):

    const { category, region } = req.query;
    let query = supabase.from('credit_cards').select('*');
    if (category) query = query.ilike('消費種類', `%` + category + `%`);
    if (region)   query = query.ilike('簽帳地區', `%` + region + `%`);
    const { data, error } = await query;
    if (error) return res.status(500).json({ error: ..., details: error.message });
    res.json(data);

and lines 27–58 (list):

    const { data, error } = await supabase.from('credit_cards')
        .select('*').order('發卡機構', { ascending: true });
    if (error) return res.status(500).json({ error: ..., details: error.message });
    res.json(data);

Postgres `ilike('col', '%x%')` with a wildcard-free `x` keeps the rows
whose column contains `x` case-insensitively, and `order(col,
ascending)` returns the rows sorted ascending by that column; the two
store evaluators below model exactly that. -/

/-- `chStartsWith hay pat`: `pat` is a prefix of `hay`. -/
def chStartsWith : List Char → List Char → Bool
  | _, [] => true
  | [], _ :: _ => false
  | a :: hay, b :: pat => a == b && chStartsWith hay pat

/-- `chContains hay pat`: `pat` occurs contiguously inside `hay`. -/
def chContains : List Char → List Char → Bool
  | [], pat => pat.isEmpty
  | a :: hay, pat => chStartsWith (a :: hay) pat || chContains hay pat

/-- Case-insensitive substring test: the semantics of Postgres
`ILIKE '%pat%'` for a wildcard-free `pat`. -/
def ciContains (hay pat : String) : Bool :=
  chContains (hay.toList.map Char.toLower) (pat.toList.map Char.toLower)

/-- Read a stored column as a string (the `credit_cards` columns the
claims touch are text columns). -/
def rowStr (r : Row) (f : String) : String :=
  match rowGet r f with
  | some (.str s) => s
  | _ => ""

/-- JavaScript truthiness of an Express query parameter: absent
(`undefined`) or the empty string is falsy. -/
def qTruthy : Option String → Bool
  | none => false
  | some s => !(s == "")

/-- The filter query the handler builds, evaluated against the store's
table: an `ilike` filter on 消費種類 (spend_category) is added only
when `category` is truthy, then one on 簽帳地區 (region) only when
`region` is truthy. -/
def filterCards (category region : Option String) (table : List Row) :
    List Row :=
  let t1 :=
    if qTruthy category then
      table.filter (fun r => ciContains (rowStr r "消費種類") (category.getD ""))
    else table
  if qTruthy region then
    t1.filter (fun r => ciContains (rowStr r "簽帳地區") (region.getD ""))
  else t1

/-- HTTP response of the two card-reading endpoints. -/
inductive ListResponse where
  /-- 500 `{ error: '無法讀取信用卡資料', details }` -/
  | storeError (details : String)
  /-- 200: the row array itself -/
  | okList (data : List Row)
  deriving DecidableEq, Repr

/-- HTTP status code of a list/filter response. -/
def listStatus : ListResponse → Nat
  | .storeError _ => 500
  | .okList _ => 200

/-- The `GET /api/cards/filter` handler over the store's current table;
`storeErr` injects a store failure. -/
def getCardsFilter (category region : Option String) (table : List Row)
    (storeErr : Option String) : ListResponse :=
  match storeErr with
  | some e => .storeError e
  | none => .okList (filterCards category region table)

/-- Ascending order on the 發卡機構 (issuer) column, the sort key of
`order('發卡機構', { ascending: true })`. -/
def issuerLE (a b : Row) : Prop :=
  rowStr a "發卡機構" ≤ rowStr b "發卡機構"

instance : DecidableRel issuerLE := fun a b =>
  inferInstanceAs (Decidable (rowStr a "發卡機構" ≤ rowStr b "發卡機構"))

instance : IsTotal Row issuerLE :=
  ⟨fun a b => le_total (rowStr a "發卡機構") (rowStr b "發卡機構")⟩

instance : IsTrans Row issuerLE :=
  ⟨fun _ _ _ hab hbc => le_trans hab hbc⟩

/-- The store's evaluation of `select('*').order('發卡機構',
{ ascending: true })`: the table sorted ascending by issuer. -/
def sortByIssuer (table : List Row) : List Row :=
  List.insertionSort issuerLE table

/-- The `GET /api/cards` handler over the store's current table. -/
def getCards (table : List Row) (storeErr : Option String) : ListResponse :=
  match storeErr with
  | some e => .storeError e
  | none => .okList (sortByIssuer table)

/-! ## Update and delete endpoints — `app.put`/`app.delete('/api/cards/:id')`

src/unnamed/part_000 lines 149–188 (update):

    const { data, error } = await supabase.from('credit_cards')
        .update(cardData).eq('id', id).select();
    if (error) return res.status(500).json({ ... });
    if (data.length === 0) return res.status(404).json({ error: '找不到該信用卡' });
    res.json({ success: true, data: data[0] });

and lines 192–230 (delete):

    const { data, error } = await supabase.from('credit_cards')
        .delete().eq('id', id).select();
    if (error) return res.status(500).json({ ... });
    if (data.length === 0) return res.status(404).json({ error: '找不到該信用卡' });
    res.json({ success: true, message: '信用卡已刪除' });

The store applies the update/delete to exactly the rows whose `id`
column equals the route parameter and returns those rows. -/

/-- Whether a stored row's `id` column equals the route parameter. -/
def idMatches (r : Row) (id : String) : Bool :=
  rowGet r "id" == some (.str id)

/-- Set one column of a row, replacing any previous binding. -/
def setField (r : Row) (k : String) (v : JsonValue) : Row :=
  (k, v) :: eraseField r k

/-- Partial field replacement: every column given in `body` is set on
`r`, the others are left untouched. -/
def mergeRow (r body : Row) : Row :=
  body.foldl (fun acc p => setField acc p.1 p.2) r

/-- The store's evaluation of `update(cardData).eq('id', id).select()`:
the new table, and the updated rows the store returns. -/
def storeUpdate (table : List Row) (id : String) (body : Row) :
    List Row × List Row :=
  (table.map (fun r => if idMatches r id then mergeRow r body else r),
   (table.filter (fun r => idMatches r id)).map (fun r => mergeRow r body))

/-- The store's evaluation of `delete().eq('id', id).select()`: the new
table, and the deleted rows the store returns. -/
def storeDelete (table : List Row) (id : String) : List Row × List Row :=
  (table.filter (fun r => !idMatches r id),
   table.filter (fun r => idMatches r id))

/-- HTTP response of `PUT /api/cards/:id`. -/
inductive UpdateResponse where
  /-- 500 `{ error: '無法更新信用卡資料', details }` -/
  | storeError (details : String)
  /-- 404 `{ error: '找不到該信用卡' }` -/
  | notFound
  /-- 200 `{ success: true, data: data[0] }` -/
  | updated (record : Option Row)
  deriving DecidableEq, Repr

/-- HTTP status code of an update response. -/
def updateStatus : UpdateResponse → Nat
  | .storeError _ => 500
  | .notFound => 404
  | .updated _ => 200

/-- The `PUT /api/cards/:id` handler; returns the response and the
store's table after the request. -/
def putCard (id : String) (body : Row) (table : List Row)
    (storeErr : Option String) : UpdateResponse × List Row :=
  match storeErr with
  | some e => (.storeError e, table)
  | none =>
    let res := storeUpdate table id body
    if res.2.length = 0 then (.notFound, res.1)
    else (.updated res.2.head?, res.1)

/-- HTTP response of `DELETE /api/cards/:id`. -/
inductive DeleteResponse where
  /-- 500 `{ error: '無法刪除信用卡資料', details }` -/
  | storeError (details : String)
  /-- 404 `{ error: '找不到該信用卡' }` -/
  | notFound
  /-- 200 `{ success: true, message: '信用卡已刪除' }` -/
  | deleted
  deriving DecidableEq, Repr

/-- HTTP status code of a delete response. -/
def deleteStatus : DeleteResponse → Nat
  | .storeError _ => 500
  | .notFound => 404
  | .deleted => 200

/-- The `DELETE /api/cards/:id` handler; returns the response and the
store's table after the request. -/
def deleteCard (id : String) (table : List Row) (storeErr : Option String) :
    DeleteResponse × List Row :=
  match storeErr with
  | some e => (.storeError e, table)
  | none =>
    let res := storeDelete table id
    if res.2.length = 0 then (.notFound, res.1)
    else (.deleted, res.1)

/-! ## Chat claims -/

/-- C1.  A chat request whose completion call succeeds but whose log
write fails still answers HTTP 200 with the generated reply and
`saved = false`; the log failure never turns the response into an
error. -/
theorem chat_log_failure_still_ok (message : Option String)
    (text err : String) (hmsg : (message.getD "" == "") = false) :
    (postChat message (.ok text) (some err)).response = .ok text false ∧
    chatStatus (postChat message (.ok text) (some err)).response = 200 := by
  simp [postChat, hmsg, chatStatus]

/-- Witness for C1 at a concrete request. -/
theorem chat_log_failure_still_ok_witness :
    (postChat (some "hi") (.ok "hello") (some "db down")).response
      = .ok "hello" false ∧
    chatStatus (postChat (some "hi") (.ok "hello") (some "db down")).response
      = 200 :=
  chat_log_failure_still_ok (some "hi") "hello" "db down" (by decide)

/-- C2 counterexample.  When the completion call fails, the `ai_logs`
insert is not attempted: the claim that a log entry is written
regardless of downstream success is false.  At the concrete request
`message = "hi"` with a throwing completion call, no log write happens
and the response is the 500 error path. -/
theorem chat_log_skipped_on_completion_failure :
    (postChat (some "hi") (.error "boom") none).logAttempted = false ∧
    chatStatus (postChat (some "hi") (.error "boom") none).response = 500 := by
  decide

/-- C2 amended.  The log write is attempted exactly on the requests
that pass validation and whose completion call succeeds; when the
completion call fails the write is never attempted. -/
theorem chat_log_attempted_iff_completion_ok (message : Option String)
    (hmsg : (message.getD "" == "") = false) :
    (∀ text logError, (postChat message (.ok text) logError).logAttempted = true ∧
      (postChat message (.ok text) logError).logEntry
        = some { prompt := message.getD "", response := text }) ∧
    (∀ e logError, (postChat message (.error e) logError).logAttempted = false ∧
      (postChat message (.error e) logError).logEntry = none) := by
  constructor
  · intro text logError
    simp [postChat, hmsg]
  · intro e logError
    simp [postChat, hmsg]

/-- Witness for the amended C2 at a concrete request. -/
theorem chat_log_attempted_iff_completion_ok_witness :
    (postChat (some "hi") (.ok "yo") none).logAttempted = true ∧
    (postChat (some "hi") (.ok "yo") none).logEntry
      = some { prompt := "hi", response := "yo" } :=
  (chat_log_attempted_iff_completion_ok (some "hi") (by decide)).1 "yo" none

/-- C4.  A chat request whose `message` is absent or the empty string
answers HTTP 400, calls the completion provider on no account and
writes no log entry. -/
theorem chat_missing_message_rejected (message : Option String)
    (genResult : Except String String) (logError : Option String)
    (hmsg : (message.getD "" == "") = true) :
    postChat message genResult logError
      = { response := .missingMessage, completionCalled := false,
          logAttempted := false, logEntry := none } ∧
    chatStatus (postChat message genResult logError).response = 400 := by
  simp [postChat, hmsg, chatStatus]

/-- Witness for C4 at the concrete absent-message request. -/
theorem chat_missing_message_rejected_witness :
    postChat none (.ok "unused") none
      = { response := .missingMessage, completionCalled := false,
          logAttempted := false, logEntry := none } ∧
    chatStatus (postChat none (.ok "unused") none).response = 400 :=
  chat_missing_message_rejected none (.ok "unused") none (by decide)

/-- C5 counterexample.  The handler has no empty-completion check: a
completion call that resolves with the empty string is treated as a
success — the response is HTTP 200 (reply `""`, `saved` true) and the
log write is attempted — not the HTTP 500 the claim requires for every
completion failure "including the provider returning an empty
completion". -/
theorem chat_empty_completion_is_success :
    chatStatus (postChat (some "hi") (.ok "") none).response = 200 ∧
    (postChat (some "hi") (.ok "") none).response = .ok "" true ∧
    (postChat (some "hi") (.ok "") none).logAttempted = true := by
  decide

/-- C5 amended.  Every thrown failure of the completion call is caught
and surfaces as HTTP 500 with the provider's message as `details`, and
the log write is not attempted in that case; a completion call that
resolves — even with empty text — is a success and yields HTTP 200. -/
theorem chat_completion_failure_is_500 (message : Option String)
    (hmsg : (message.getD "" == "") = false) :
    (∀ e logError, postChat message (.error e) logError
        = { response := .serverError e, completionCalled := true,
            logAttempted := false, logEntry := none } ∧
      chatStatus (postChat message (.error e) logError).response = 500) ∧
    (∀ text logError,
      chatStatus (postChat message (.ok text) logError).response = 200) := by
  constructor
  · intro e logError
    simp [postChat, hmsg, chatStatus]
  · intro text logError
    simp [postChat, hmsg, chatStatus]

/-- Witness for the amended C5 at a concrete request. -/
theorem chat_completion_failure_is_500_witness :
    postChat (some "hi") (.error "quota exceeded") none
      = { response := .serverError "quota exceeded", completionCalled := true,
          logAttempted := false, logEntry := none } ∧
    chatStatus (postChat (some "hi") (.error "quota exceeded") none).response
      = 500 :=
  (chat_completion_failure_is_500 (some "hi") (by decide)).1 "quota exceeded" none

/-! ## Helper lemmas -/

/-- `find?` only looks at the predicate's values on the list. -/
theorem find?_ext {α : Type} {p q : α → Bool} :
    ∀ l : List α, (∀ a ∈ l, p a = q a) → l.find? p = l.find? q := by
  intro l
  induction l with
  | nil => intro _; rfl
  | cons a t ih =>
    intro h
    have ha : p a = q a := h a (List.mem_cons_self a t)
    simp only [List.find?, ha]
    cases q a
    · exact ih (fun b hb => h b (List.mem_cons_of_mem a hb))
    · rfl

/-- Property lookup after erasing a field. -/
theorem rowGet_eraseField (body : Row) (f g : String) :
    rowGet (eraseField body f) g = if g = f then none else rowGet body g := by
  induction body with
  | nil => simp [eraseField, rowGet, ite_self]
  | cons p t ih =>
    simp only [eraseField, List.filter_cons] at ih ⊢
    by_cases hpf : p.1 = f
    · simp only [hpf, beq_self_eq_true, Bool.not_true, if_neg Bool.false_ne_true]
      rw [ih]
      by_cases hgf : g = f
      · simp [hgf]
      · have hpg : ¬p.1 = g := by rw [hpf]; exact fun h => hgf h.symm
        simp [hgf, rowGet, hpg]
    · have : (!(p.1 == f)) = true := by simp [hpf]
      rw [if_pos this]
      by_cases hpg : p.1 = g
      · have hgf : ¬g = f := by rw [← hpg]; exact hpf
        simp [rowGet, hpg, hgf]
      · simp only [rowGet, if_neg hpg]
        exact ih

/-- The empty pattern occurs in every string of characters. -/
theorem chContains_nil (hay : List Char) : chContains hay [] = true := by
  induction hay with
  | nil => rfl
  | cons a t _ => simp [chContains, chStartsWith]

/-- `ILIKE '%%'` (empty pattern) keeps every row. -/
theorem ciContains_empty (hay : String) : ciContains hay "" = true := by
  unfold ciContains
  have h : ("" : String).toList.map Char.toLower = [] := rfl
  rw [h]
  exact chContains_nil _

/-! ## Card-registry claims -/

/-- C3.  A create request missing one of the four required fields
(issuer 發卡機構, card_name 卡名, spend_category 消費種類,
reward_value 回饋數值) answers HTTP 400 naming the first missing field
in that order and performs no store call; when all four are present
(and, per the hypothesis, non-empty/truthy) the insert is performed and
the response is HTTP 201 carrying the single inserted record. -/
theorem cards_create_validation (body : Row)
    (hpres : requiredFields.all
      (fun f => (rowGet body f).elim true jsTruthy) = true) :
    (∀ f, requiredFields.find? (fun g => (rowGet body g).isNone) = some f →
        ∀ insertResult, postCards body insertResult = (.missingField f, false) ∧
          createStatus (.missingField f) = 400) ∧
    ((∀ f ∈ requiredFields, (rowGet body f).isSome = true) →
        ∀ r : Row, postCards body (.ok [r]) = (.created (some r), true) ∧
          createStatus (.created (some r)) = 201) := by
  have hfm : firstMissing body
      = requiredFields.find? (fun g => (rowGet body g).isNone) := by
    unfold firstMissing
    apply find?_ext
    intro f hf
    have hp : (rowGet body f).elim true jsTruthy = true := by
      rw [List.all_eq_true] at hpres
      exact hpres f hf
    unfold rowTruthy
    cases hg : rowGet body f with
    | none => simp
    | some v =>
      rw [hg] at hp
      simp only [Option.elim] at hp
      simp [hp]
  constructor
  · intro f hf insertResult
    unfold postCards
    rw [hfm, hf]
    exact ⟨rfl, rfl⟩
  · intro hall r
    have hnone : requiredFields.find? (fun g => (rowGet body g).isNone) = none := by
      rw [List.find?_eq_none]
      intro f hf
      simp [Option.isNone_eq_false_iff, Option.isSome_iff_ne_none.mp (hall f hf)]
    unfold postCards
    rw [hfm, hnone]
    exact ⟨rfl, rfl⟩

/-- Witness for C3 at a concrete valid create request. -/
theorem cards_create_validation_witness :
    postCards
        [("發卡機構", JsonValue.str "HSBC"), ("卡名", JsonValue.str "Red"),
         ("消費種類", JsonValue.str "dining"), ("回饋數值", JsonValue.str "4%")]
        (.ok [[("id", JsonValue.num 1)]])
      = (.created (some [("id", JsonValue.num 1)]), true) ∧
    createStatus (.created (some [("id", JsonValue.num 1)])) = 201 :=
  (cards_create_validation
      [("發卡機構", JsonValue.str "HSBC"), ("卡名", JsonValue.str "Red"),
       ("消費種類", JsonValue.str "dining"), ("回饋數值", JsonValue.str "4%")]
      (by decide)).2 (by decide) [("id", JsonValue.num 1)]

/-- C9.  A required create field that is present but bound to a falsy
value (empty string, `0`, `false`, `null`) is treated exactly as an
absent field: the handler behaves identically on the body with the
field erased, and when that field is the first one the check rejects,
the response is HTTP 400 naming it, with no store call. -/
theorem cards_create_falsy_field (body : Row) (f : String) (v : JsonValue)
    (hf : rowGet body f = some v) (hv : jsTruthy v = false) :
    (∀ insertResult, postCards body insertResult
        = postCards (eraseField body f) insertResult) ∧
    (firstMissing body = some f →
      ∀ insertResult, postCards body insertResult = (.missingField f, false) ∧
        createStatus (.missingField f) = 400) := by
  have key : ∀ g, rowTruthy (eraseField body f) g = rowTruthy body g := by
    intro g
    unfold rowTruthy
    rw [rowGet_eraseField]
    by_cases hgf : g = f
    · subst hgf
      rw [hf]
      simp [hv]
    · simp [hgf]
  have hfm : firstMissing (eraseField body f) = firstMissing body := by
    unfold firstMissing
    apply find?_ext
    intro g _
    rw [key g]
  constructor
  · intro ins
    unfold postCards
    rw [hfm]
  · intro hmiss ins
    unfold postCards
    rw [hmiss]
    exact ⟨rfl, rfl⟩

/-- Witness for C9 at a concrete request whose issuer field is the
empty string. -/
theorem cards_create_falsy_field_witness :
    postCards [("發卡機構", JsonValue.str "")] (.ok [])
      = (.missingField "發卡機構", false) ∧
    createStatus (.missingField "發卡機構") = 400 :=
  (cards_create_falsy_field [("發卡機構", JsonValue.str "")] "發卡機構"
      (JsonValue.str "") (by decide) (by decide)).2 (by decide) (.ok [])

/-- C6.  An update or delete request whose id matches no stored row
(with the store reporting no error) answers HTTP 404 and leaves the
store's table unchanged. -/
theorem cards_update_delete_not_found (id : String) (body : Row)
    (table : List Row) (hno : table.all (fun r => !idMatches r id) = true) :
    putCard id body table none = (.notFound, table) ∧
    deleteCard id table none = (.notFound, table) ∧
    updateStatus .notFound = 404 ∧ deleteStatus .notFound = 404 := by
  have hall : ∀ r ∈ table, idMatches r id = false := by
    rw [List.all_eq_true] at hno
    intro r hr
    have h := hno r hr
    simpa using h
  have hfilter : table.filter (fun r => idMatches r id) = [] := by
    rw [List.filter_eq_nil_iff]
    intro r hr
    simp [hall r hr]
  have hkeep : table.filter (fun r => !idMatches r id) = table := by
    rw [List.filter_eq_self]
    intro r hr
    simp [hall r hr]
  have hmap : table.map (fun r => if idMatches r id then mergeRow r body else r)
      = table := by
    have h1 : table.map (fun r => if idMatches r id then mergeRow r body else r)
        = table.map (fun r => r) := by
      apply List.map_congr_left
      intro r hr
      simp [hall r hr]
    rw [h1, List.map_id']
  refine ⟨?_, ?_, rfl, rfl⟩
  · unfold putCard storeUpdate
    simp only [hfilter, hmap, List.map_nil, List.length_nil, if_pos rfl]
    simp
  · unfold deleteCard storeDelete
    simp only [hfilter, hkeep, List.length_nil, if_pos rfl]
    simp

/-- Witness for C6 at a concrete one-row table and an unmatched id. -/
theorem cards_update_delete_not_found_witness :
    putCard "2" [] [[("id", JsonValue.str "1")]] none
      = (.notFound, [[("id", JsonValue.str "1")]]) ∧
    deleteCard "2" [[("id", JsonValue.str "1")]] none
      = (.notFound, [[("id", JsonValue.str "1")]]) ∧
    updateStatus .notFound = 404 ∧ deleteStatus .notFound = 404 :=
  cards_update_delete_not_found "2" [] [[("id", JsonValue.str "1")]] (by decide)

/-- C7.  A filter request keeps exactly the stored rows matched by
every present parameter: a present `category` requires a
case-insensitive substring match on 消費種類 (spend_category), a
present `region` one on 簽帳地區 (region), both present parameters
combine conjunctively, and an absent parameter imposes no
constraint. -/
theorem cards_filter_semantics (category region : Option String)
    (table : List Row) :
    getCardsFilter category region table none
      = .okList (table.filter (fun r =>
          (match category with
           | none => true
           | some s => ciContains (rowStr r "消費種類") s) &&
          (match region with
           | none => true
           | some s => ciContains (rowStr r "簽帳地區") s))) := by
  unfold getCardsFilter
  unfold filterCards
  cases category with
  | none =>
    cases region with
    | none => simp [qTruthy]
    | some s =>
      by_cases hs : s = ""
      · subst hs
        simp [qTruthy, ciContains_empty]
      · simp [qTruthy, hs]
  | some c =>
    by_cases hc : c = ""
    · subst hc
      cases region with
      | none => simp [qTruthy, ciContains_empty]
      | some s =>
        by_cases hs : s = ""
        · subst hs
          simp [qTruthy, ciContains_empty]
        · simp [qTruthy, hs, ciContains_empty]
    · cases region with
      | none => simp [qTruthy, hc]
      | some s =>
        by_cases hs : s = ""
        · subst hs
          simp [qTruthy, hc, ciContains_empty]
        · simp [qTruthy, hc, hs, List.filter_filter, Bool.and_comm]

/-- C10.  A filter request in which `category` or `region` is present
but equal to the empty string behaves exactly as if that parameter were
absent. -/
theorem cards_filter_empty_param (category region : Option String)
    (table : List Row) (storeErr : Option String) :
    getCardsFilter (some "") region table storeErr
        = getCardsFilter none region table storeErr ∧
    getCardsFilter category (some "") table storeErr
        = getCardsFilter category none table storeErr := by
  cases storeErr with
  | some e => exact ⟨rfl, rfl⟩
  | none =>
    constructor
    · simp [getCardsFilter, filterCards, qTruthy]
    · simp [getCardsFilter, filterCards, qTruthy]

/-- C8.  A successful list request returns the store's rows sorted
ascending by the issuer column (發卡機構), whatever order the store
holds them in: the output is sorted and is a permutation of the
table. -/
theorem cards_list_sorted (table : List Row) :
    getCards table none = .okList (sortByIssuer table) ∧
    (sortByIssuer table).Sorted issuerLE ∧
    (sortByIssuer table).Perm table := by
  refine ⟨rfl, ?_, ?_⟩
  · exact List.sorted_insertionSort issuerLE table
  · exact List.perm_insertionSort issuerLE table

end GeminiBackend
